import Mathlib

/-!
# Verification of the Materials Feasibility Decision Engine

A shallow embedding of `src/agents/simulation_agent.py` (the Materials
Feasibility Decision Engine) and proofs about its behaviour.

Modelling conventions:
* Python `float` arithmetic is embedded as exact rational arithmetic (`ℚ`);
  all numeric literals of the source are exactly representable decimals, and
  none of the comparisons the source performs are close enough to a float
  rounding boundary for the distinction to matter.
* Python dicts (insertion-ordered) are embedded as association lists
  `List (String × Nat)` with insert-or-accumulate semantics.
* Python's stable `sorted(…, key=…)` is embedded as a stable insertion sort.
* The external collaborators (the M3GNet energy predictor, the pymatgen
  `Structure` constructor, and the pymatgen `PhaseDiagram` hull computation)
  are modelled by an explicit environment `CollabEnv` recording their
  outcomes for the single evaluation; the engine's own code is embedded
  faithfully around them.
* Diagnostic strings that interpolate a float with Python's `%.2f`/`%.3f`
  formatting use `fmtFixed` below, an exact decimal rendering; no theorem in
  this file depends on the text of such a formatted number.
-/

/- Batteries marks the arithmetic of `Rat` `@[irreducible]`, which blocks
`decide`/`rfl` evaluation of concrete rational computations; restore the
default reducibility for this verification file. -/
attribute [local semireducible] Rat.ofScientific Rat.add Rat.sub Rat.mul Rat.inv

/-- Numeric value of a decimal digit character. -/
def digitVal (c : Char) : Nat := c.toNat - 48

/-- Decimal value of a list of digit characters (most significant first). -/
def numFromDigits (ds : List Char) : Nat :=
  ds.foldl (fun n c => 10 * n + digitVal c) 0

/-- An absent count in a formula token means multiplicity 1
(`int(count) if count else 1`, simulation_agent.py line 258). -/
def countFromDigits (ds : List Char) : Nat :=
  if ds.isEmpty then 1 else numFromDigits ds

/-- One scanning step of `re.findall(r'([A-Z][a-z]?)(\d*)', formula)`
(simulation_agent.py line 255): at an upper-case letter, read an element
token (upper case letter plus optional lower-case letter) followed by an
optional run of digits; any other character is skipped.  The first argument
is fuel; each step consumes at least one character, so fuel equal to the
length of the input makes the function total (structural recursion on the
fuel keeps the definition kernel-reducible). -/
def tokenizeAux : Nat → List Char → List (String × Nat)
  | 0, _ => []
  | _ + 1, [] => []
  | fuel + 1, c :: rest =>
    if c.isUpper then
      match rest with
      | c2 :: rest2 =>
        if c2.isLower then
          let ds := rest2.takeWhile Char.isDigit
          (String.mk [c, c2], countFromDigits ds) ::
            tokenizeAux fuel (rest2.dropWhile Char.isDigit)
        else
          let ds := rest.takeWhile Char.isDigit
          (String.mk [c], countFromDigits ds) ::
            tokenizeAux fuel (rest.dropWhile Char.isDigit)
      | [] => [(String.mk [c], 1)]
    else
      tokenizeAux fuel rest

/-- All `(element, count)` tokens of a formula string, in scanning order;
the exact match set of `re.findall(r'([A-Z][a-z]?)(\d*)', formula)`. -/
def tokenize (l : List Char) : List (String × Nat) := tokenizeAux l.length l

/-- Add one token to an insertion-ordered association list, accumulating the
count when the key is already present — the semantics of
`composition[el] = composition.get(el, 0) + n` on a Python dict
(simulation_agent.py line 259). -/
def addToken : List (String × Nat) → String → Nat → List (String × Nat)
  | [], el, n => [(el, n)]
  | (e, c) :: rest, el, n =>
    if e = el then (e, c + n) :: rest else (e, c) :: addToken rest el n

/-- `parse_formula` (simulation_agent.py lines 254-260): tokenize the formula
and accumulate counts per element symbol into an insertion-ordered map. -/
def parse_formula (formula : String) : List (String × Nat) :=
  (tokenize formula.data).foldl (fun acc t => addToken acc t.1 t.2) []

/-- `ELECTRONEGATIVITY` table (simulation_agent.py lines 16-21). -/
def ELECTRONEGATIVITY : String → Option ℚ
  | "H" => some 2.20 | "Li" => some 0.98 | "Be" => some 1.57 | "B" => some 2.04
  | "C" => some 2.55 | "N" => some 3.04 | "O" => some 3.44 | "F" => some 3.98
  | "Na" => some 0.93 | "Mg" => some 1.31 | "Al" => some 1.61 | "Si" => some 1.90
  | "P" => some 2.19 | "S" => some 2.58 | "Cl" => some 3.16
  | "K" => some 0.82 | "Ca" => some 1.00 | "Fe" => some 1.83 | "Cu" => some 1.90
  | "Zn" => some 1.65
  | _ => none

/-- `ELECTRONEGATIVITY.get(e, 2.0)` — the 2.0 default used by every sort key
in the source. -/
def enOf (e : String) : ℚ := (ELECTRONEGATIVITY e).getD 2.0

/-- `OXIDATION_STATES` table (simulation_agent.py lines 23-30), in source
order (the source takes the first positive / first negative entry). -/
def OXIDATION_STATES : String → List Int
  | "H" => [1, -1] | "O" => [-2] | "F" => [-1]
  | "Cl" => [-1, 1, 3, 5, 7]
  | "N" => [-3, 3, 5] | "C" => [-4, 2, 4]
  | "Na" => [1] | "K" => [1] | "Mg" => [2] | "Ca" => [2]
  | "Fe" => [2, 3] | "Cu" => [1, 2] | "Zn" => [2]
  | "Al" => [3] | "Si" => [4] | "P" => [5, -3]
  | _ => []

/-- `IONIC_RADII_PM` table (simulation_agent.py lines 32-35), in pm. -/
def IONIC_RADII_PM : String → Option ℚ
  | "Na" => some 102 | "K" => some 138 | "Ca" => some 100 | "Mg" => some 72
  | "Al" => some 53 | "Si" => some 40 | "Fe" => some 78 | "Cu" => some 73
  | "Zn" => some 74 | "Cl" => some 181 | "O" => some 140
  | _ => none

/-- Stable insertion of one element into an already-processed list: the new
element goes after every element whose key is less than or equal to its own,
reproducing the stability of Python's `sorted`. -/
def stableInsert (le : α → α → Bool) (x : α) : List α → List α
  | [] => [x]
  | y :: ys => if le y x then y :: stableInsert le x ys else x :: y :: ys

/-- Stable sort (the unique function agreeing with Python's `sorted`
for a total preorder given by `le`). -/
def stableSort (le : α → α → Bool) (l : List α) : List α :=
  l.foldl (fun acc x => stableInsert le x acc) []

/-- Boolean comparison of electronegativity sort keys,
`key=lambda e: ELECTRONEGATIVITY.get(e, 2.0)`. -/
def enLe (a b : String) : Bool := decide (enOf a ≤ enOf b)

/-- Strict lexicographic order on character lists (by code point) — the
order Python uses to compare strings. -/
def charListLt : List Char → List Char → Bool
  | [], [] => false
  | [], _ :: _ => true
  | _ :: _, [] => false
  | a :: as, b :: bs => if a = b then charListLt as bs else decide (a < b)

/-- Lexicographic string order as used by Python's `sorted` on strings. -/
def strLe (a b : String) : Bool := !(charListLt b.data a.data)

/-- The cation-candidate half of the electronegativity-sorted element list:
`sorted_els[:max(1, len(sorted_els)//2)]` (simulation_agent.py line 266;
the identical split is used at lines 132-133, 304 and 327). -/
def cationCands (els : List String) : List String :=
  els.take (max 1 (els.length / 2))

/-- The anion-candidate half: `sorted_els[max(1, len(sorted_els)//2):]`
(simulation_agent.py line 267). -/
def anionCands (els : List String) : List String :=
  els.drop (max 1 (els.length / 2))

/-- Atom count of an element in a parsed composition, 0 when absent
(`parsed.get(e, 0)`). -/
def lookupCount (parsed : List (String × Nat)) (e : String) : Nat :=
  ((parsed.find? (fun p => p.1 = e)).map Prod.snd).getD 0

/-- The positive oxidation states of an element, in table order
(`[s for s in OXIDATION_STATES.get(e, []) if s > 0]`, line 272). -/
def posStatesOf (e : String) : List Int :=
  (OXIDATION_STATES e).filter (fun s => decide (0 < s))

/-- The negative oxidation states of an element, in table order
(`[s for s in OXIDATION_STATES.get(e, []) if s < 0]`, line 279). -/
def negStatesOf (e : String) : List Int :=
  (OXIDATION_STATES e).filter (fun s => decide (s < 0))

/-- The accumulation loop shared by the two `for` loops of
`check_stoichiometry_veto` (simulation_agent.py lines 270-283): for each
candidate element that has a state of the requested sign, add
`state × count` to the running total and append the assignment. -/
def assignFold (composition : List (String × Nat)) (states : String → List Int) :
    List String → Int × List (String × Int × Nat) → Int × List (String × Int × Nat)
  | [], acc => acc
  | e :: rest, acc =>
    match states e with
    | [] => assignFold composition states rest acc
    | ox :: _ =>
      assignFold composition states rest
        (acc.1 + ox * (lookupCount composition e : Int),
         acc.2 ++ [(e, ox, lookupCount composition e)])

/-- Rendering of one assignment, `f"{e}({ox})×{m}"` (line 284). -/
def renderAssignment (a : String × Int × Nat) : String :=
  a.1 ++ "(" ++ toString a.2.1 ++ ")×" ++ toString a.2.2

/-- `check_stoichiometry_veto` (simulation_agent.py lines 262-287). -/
def check_stoichiometry_veto (composition : List (String × Nat)) : Bool × String :=
  if composition.length < 2 then (false, "Invalid or unary composition.")
  else
    let sortedEls := stableSort enLe (composition.map Prod.fst)
    let r1 := assignFold composition posStatesOf (cationCands sortedEls) (0, [])
    let r2 := assignFold composition negStatesOf (anionCands sortedEls) r1
    let steps :=
      if r2.2.isEmpty then "no assignments"
      else String.intercalate ", " (r2.2.map renderAssignment)
    if r2.1 = 0 then
      (true, "Charge neutrality achievable via assignments: " ++ steps ++ ".")
    else
      (false, "Net charge " ++ toString r2.1 ++ " with common oxidation states (" ++
        steps ++ "); unlikely.")

/-- Zero padding used by the fixed-point renderer. -/
def padZeros (k : Nat) : String := String.mk (List.replicate k '0')

/-- Fixed-point decimal rendering of a non-negative rational (round half up). -/
def fmtMag (digits : Nat) (q : ℚ) : String :=
  let base : Nat := 10 ^ digits
  let n : Nat := (Rat.floor (q * (base : ℚ) + 1/2)).toNat
  let frac := toString (n % base)
  toString (n / base) ++ "." ++ padZeros (digits - frac.length) ++ frac

/-- Decimal rendering of a rational with a fixed number of fraction digits;
stands in for Python's `%.2f` / `%.3f` float formatting in diagnostic
strings (no theorem below depends on this text). -/
def fmtFixed (digits : Nat) (q : ℚ) : String :=
  if q < 0 then "-" ++ fmtMag digits (-q) else fmtMag digits q

/-- Largest element of a rational list (`max(...)` on a non-empty Python
list; the 0 returned for `[]` is unreachable in the pipeline, where the veto
guarantees at least two elements). -/
def listMax : List ℚ → ℚ
  | [] => 0
  | x :: xs => xs.foldl max x

/-- Smallest element of a rational list (see `listMax`). -/
def listMin : List ℚ → ℚ
  | [] => 0
  | x :: xs => xs.foldl min x

/-- `electronegativity_trend` (simulation_agent.py lines 289-300). -/
def electronegativity_trend (composition : List (String × Nat)) : Bool × String :=
  let els := composition.map Prod.fst
  let enValues := els.map ELECTRONEGATIVITY
  if enValues.any (fun v => v.isNone) then (false, "Missing EN data.")
  else
    let vals := enValues.reduceOption
    let delta := listMax vals - listMin vals
    if 1 ≤ delta then
      (true, "ΔEN ≈ " ++ fmtFixed 2 delta ++ " suggests plausible bonding.")
    else if 1/2 ≤ delta then
      (true, "ΔEN ≈ " ++ fmtFixed 2 delta ++ " indicates moderate polarity.")
    else
      (false, "ΔEN ≈ " ++ fmtFixed 2 delta ++ " is low; metallic clustering likely.")

/-- `crystal_rules_feasibility` (simulation_agent.py lines 302-313). -/
def crystal_rules_feasibility (composition : List (String × Nat)) : Bool × String :=
  let els := stableSort enLe (composition.map Prod.fst)
  let cations := (cationCands els).filter (fun e => (IONIC_RADII_PM e).isSome)
  let anions := (anionCands els).filter (fun e => (IONIC_RADII_PM e).isSome)
  match cations, anions with
  | c :: _, a :: _ =>
    let rc := (IONIC_RADII_PM c).getD 100
    let ra := (IONIC_RADII_PM a).getD 100
    let ratio := rc / ra
    if 3/10 ≤ ratio ∧ ratio ≤ 7/10 then
      (true, "Radius ratio ≈ " ++ fmtFixed 2 ratio ++ " within stable window.")
    else
      (false, "Radius ratio ≈ " ++ fmtFixed 2 ratio ++ " outside stable window.")
  | _, _ => (false, "Insufficient radii data.")

/-- Prefix test on character lists (helper for the substring search below). -/
def startsWithChars : List Char → List Char → Bool
  | _, [] => true
  | [], _ :: _ => false
  | c :: cs, p :: ps => c = p && startsWithChars cs ps

/-- Substring occurrence test: `containsSub s pat = true` iff `pat` occurs
contiguously in `s` — the semantics of `re.search` for a literal pattern. -/
def containsSub : List Char → List Char → Bool
  | [], pat => startsWithChars [] pat
  | c :: rest, pat => startsWithChars (c :: rest) pat || containsSub rest pat

/-- `analogue_comparison_hint` (simulation_agent.py lines 315-320):
`re.search(r'Cl|Br|I', formula)` then `re.search(r'O', formula)` — raw
substring matching on the formula text, not on the parsed composition. -/
def analogue_comparison_hint (formula : String) : Bool × String :=
  if containsSub formula.data "Cl".data || containsSub formula.data "Br".data ||
      containsSub formula.data "I".data then
    (true, "Halide family detected; analogues exist.")
  else if containsSub formula.data "O".data then
    (true, "Oxide family detected; analogues exist.")
  else
    (false, "No clear analogue family detected.")

/-- A candidate crystal structure: cubic lattice parameter (Å), species and
fractional coordinates — the data `pymatgen.core.Structure` is built from
(`Structure(Lattice.cubic(a), species, frac_coords)`). -/
structure StructureSpec where
  latticeA : ℚ
  species : List String
  fracCoords : List (List ℚ)
deriving DecidableEq, Repr

/-- The effective `generate_prototype_structure` (simulation_agent.py lines
322-340).  NOTE: the module defines `generate_prototype_structure` twice; this
second definition (rock-salt only) shadows the first (lines 113-242), which
carried the perovskite/spinel/rock-salt template selection.  In the effective
code: elements are the distinct symbols of the composition sorted by
electronegativity (default 2.0); the cation is `elements[0]`, the anion
`elements[-1]`; the lattice parameter is `max(4.5, (rc + ra) * 0.01)` from the
ionic radii (default 100 pm); the result is always the two-site rock-salt
motif.  `pymatgen.Composition(formula).elements` is modelled as the key list
of the module's own regex parser, which agrees on the plain formulas handled
here; an empty element list (on which `elements[0]` would raise) is modelled
as `none`. -/
def generate_prototype_structure (formula : String) : Option StructureSpec :=
  let parsed := parse_formula formula
  let elements := stableSort enLe (parsed.map Prod.fst)
  match elements.head?, elements.getLast? with
  | some cation, some anion =>
    let rc := (IONIC_RADII_PM cation).getD 100
    let ra := (IONIC_RADII_PM anion).getD 100
    let aAng := max 4.5 ((rc + ra) * 0.01)
    some ⟨aAng, [cation, anion], [[0, 0, 0], [1/2, 1/2, 1/2]]⟩
  | _, _ => none

/-- The role-selection rule of the shadowed first
`generate_prototype_structure` (simulation_agent.py line 137):
`max(pool, key=lambda e: parsed.get(e, 0))` — the first element of the pool
with the maximal atom count. -/
def dominantByCount (parsed : List (String × Nat)) : List String → Option String
  | [] => none
  | e :: rest =>
    some (rest.foldl
      (fun best x => if lookupCount parsed best < lookupCount parsed x then x else best) e)

/-- `COMPETING_PHASES_LIBRARY` (simulation_agent.py lines 55-98), with the
key tuples exactly as written in the source — note that the keys
`("Cu", "Cl")`, `("Na", "Al", "Si", "O")`, `("Si", "O")` and `("Na", "Cl")`
are NOT in sorted order, while `("Fe", "O")` and `("Mg", "O")` are.
Each entry value is a list of (composition formula, energy per atom). -/
def COMPETING_PHASES_LIBRARY : List (List String × List (String × ℚ)) :=
  [ (["Cu", "Cl"],
      [("Cu", 0.0), ("Cl2", 0.0), ("CuCl", -0.8), ("CuCl2", -0.6)]),
    (["Na", "Al", "Si", "O"],
      [("Na", 0.0), ("Al", 0.0), ("Si", 0.0), ("O2", 0.0),
       ("Na2O", -1.2), ("Al2O3", -1.5), ("SiO2", -1.6)]),
    (["Fe", "O"],
      [("Fe", 0.0), ("O2", 0.0), ("FeO", -1.0), ("Fe2O3", -1.2)]),
    (["Mg", "O"],
      [("Mg", 0.0), ("O2", 0.0), ("MgO", -1.1)]),
    (["Si", "O"],
      [("Si", 0.0), ("O2", 0.0), ("SiO2", -1.6)]),
    (["Na", "Cl"],
      [("Na", 0.0), ("Cl2", 0.0), ("NaCl", -0.9)]) ]

/-- The lookup key built by `get_competing_phases` (line 250):
`tuple(sorted([el.symbol for el in comp.elements]))` — the distinct element
symbols of the formula in lexicographically sorted order. -/
def chemicalSystemKey (formula : String) : List String :=
  stableSort strLe ((parse_formula formula).map Prod.fst)

/-- `get_competing_phases` (simulation_agent.py lines 244-251): exact-match
lookup of the sorted-symbol key in the library, empty list on a miss. -/
def get_competing_phases (formula : String) : List (String × ℚ) :=
  match COMPETING_PHASES_LIBRARY.find? (fun p => p.1 = chemicalSystemKey formula) with
  | some p => p.2
  | none => []

/-- One decision of the reasoning trail (simulation_agent.py lines 38-42). -/
structure ParameterDecision where
  name : String
  ok : Bool
  justification : String
deriving DecidableEq, Repr

/-- The `details` dictionary of a `SimulationResult`
(keys `formation_energy_ev_per_atom`, `ehull_ev_per_atom`). -/
structure SimDetails where
  formation_energy_ev_per_atom : Option ℚ
  ehull_ev_per_atom : Option ℚ
deriving DecidableEq, Repr

/-- `SimulationResult` (simulation_agent.py lines 44-49). -/
structure SimulationResult where
  mode : String
  verdict : String
  reasoning : List String
  details : SimDetails
deriving DecidableEq, Repr

/-- The outcomes of the external collaborators during one evaluation.  The
engine's own logic is embedded exactly; these three fields record what the
black-box collaborators returned:
* `structureToolkitError`: `some msg` if the crystal-structure toolkit raised
  while building the prototype structure inside the `try` of Step 3 of
  `run_simulation_agent` (caught at lines 417-418); `none` if construction
  succeeded.
* `m3gnetEnergy`: the outcome of `safe_predict_energy` (lines 100-111), which
  catches every predictor failure and returns `None`.
* `hullResult`: the outcome of the `PhaseDiagram` convex-hull computation
  inside `compute_ehull` (lines 349-357): an energy above hull, or the text
  of the exception it caught. -/
structure CollabEnv where
  structureToolkitError : Option String
  m3gnetEnergy : Option ℚ
  hullResult : Except String ℚ

/-- `predict_formation_energy` (simulation_agent.py lines 342-347), with the
predictor outcome supplied by the environment. -/
def predict_formation_energy (env : CollabEnv) : Option ℚ × String :=
  match env.m3gnetEnergy with
  | some e => (some e, "M3GNet predicted formation energy ≈ " ++ fmtFixed 3 e ++ " eV/atom.")
  | none => (none, "M3GNet prediction failed: dtype mismatch or other error.")

/-- `compute_ehull` (simulation_agent.py lines 349-357): the phase-diagram
collaborator's outcome is supplied by the environment; an exception is caught
and surfaced as `(None, diagnostic)`.  The formula, candidate energy and
competing-phase arguments of the source function are kept for fidelity of the
interface; the hull arithmetic itself is the external collaborator. -/
def compute_ehull (env : CollabEnv) (_formula : String) (_candidateEnergy : ℚ)
    (_competingPhases : List (String × ℚ)) : Option ℚ × String :=
  match env.hullResult with
  | Except.ok h => (some h, "Ehull ≈ " ++ fmtFixed 3 h ++ " eV/atom.")
  | Except.error e => (none, "Ehull computation failed: " ++ e)

/-- Rendering of one decision in the `reasoning` list,
`f"{d.name}: {'Yes' if d.ok else 'No'} — {d.justification}"` (lines 390, 434). -/
def renderDecision (d : ParameterDecision) : String :=
  d.name ++ ": " ++ (if d.ok then "Yes" else "No") ++ " — " ++ d.justification

/-- The three soft-filter decisions, in evaluation order
(simulation_agent.py lines 374-382). -/
def softDecisionList (formula : String) : List ParameterDecision :=
  let composition := parse_formula formula
  let fEn := electronegativity_trend composition
  let fAn := analogue_comparison_hint formula
  let fCr := crystal_rules_feasibility composition
  [⟨"Electronegativity", fEn.1, fEn.2⟩,
   ⟨"Analogues", fAn.1, fAn.2⟩,
   ⟨"Crystal Chemistry Rules", fCr.1, fCr.2⟩]

/-- `filters_pass` (line 384): the number of soft filters that passed. -/
def softPassCount (formula : String) : Nat :=
  ((softDecisionList formula).filter (fun d => d.ok)).length

/-- `filters_fail` (line 385): soft filters minus passes. -/
def softFailCount (formula : String) : Nat :=
  (softDecisionList formula).length - softPassCount formula

/-- Step 3 of `run_simulation_agent` (simulation_agent.py lines 394-418):
the decisions appended by the structure/energy/hull stage, together with the
final values of `est_fe` and `ehull`.  The `if "parsed" in locals()` branch
at line 400 is dead (`parsed` is never a local of `run_simulation_agent`), so
the structure always comes from `generate_prototype_structure`.  If the
toolkit raised, the `except` at lines 417-418 appends a failed
Formation-Energy decision; if the builder returned no structure, the `else`
at lines 415-416 appends a failed Formation-Energy decision; in both cases no
Convex-Hull decision is appended. -/
def step3Outcome (env : CollabEnv) (formula : String) :
    List ParameterDecision × Option ℚ × Option ℚ :=
  match env.structureToolkitError with
  | some e =>
    ([⟨"Formation Energy (M3GNet)", false, "M3GNet prediction failed: " ++ e⟩],
     (none, none))
  | none =>
    match generate_prototype_structure formula with
    | none =>
      ([⟨"Formation Energy (M3GNet)", false, "No structure available; cannot run M3GNet."⟩],
       (none, none))
    | some _ =>
      let fe := predict_formation_energy env
      let feOk := match fe.1 with | some e => decide (e < 0) | none => false
      let dFe : ParameterDecision := ⟨"Formation Energy (M3GNet)", feOk, fe.2⟩
      let competing := get_competing_phases formula
      if competing.isEmpty = false ∧ fe.1.isSome = true then
        let eh := compute_ehull env formula (fe.1.getD 0) competing
        let ehOk := match eh.1 with | some h => decide (h ≤ 0.2) | none => false
        ([dFe, ⟨"Convex Hull Stability (Ehull)", ehOk, eh.2⟩], (fe.1, eh.1))
      else
        ([dFe, ⟨"Convex Hull Stability (Ehull)", false,
           "No competing phases available for this system."⟩],
         (fe.1, none))

/-- The verdict assembly of `run_simulation_agent`
(simulation_agent.py lines 420-432). -/
def verdictOf (ehull estFe : Option ℚ) (filtersPass : Nat) : String :=
  match ehull with
  | some h => if h ≤ 0.1 then "Feasible" else if h ≤ 0.2 then "Metastable" else "Not feasible"
  | none =>
    match estFe with
    | some e =>
      if e < 0 then "Feasible"
      else if 2 ≤ filtersPass then "Metastable" else "Uncertain"
    | none => if 2 ≤ filtersPass then "Metastable" else "Uncertain"

/-- `run_simulation_agent` (simulation_agent.py lines 360-437), instrumented
to also return the `decisions` trail (the source keeps it in the local
variable `decisions`; `reasoning` is its rendering).  Stage structure:
veto (early return, lines 363-372), soft filters with 2-of-3 early
termination (lines 374-392), structure/energy/hull (lines 394-418), verdict
assembly (lines 420-437). -/
def runSimFull (env : CollabEnv) (formula : String) :
    SimulationResult × List ParameterDecision :=
  let v := check_stoichiometry_veto (parse_formula formula)
  if v.1 = true then
    let decisions1 := ⟨"Stoichiometry Veto", v.1, v.2⟩ :: softDecisionList formula
    if 2 ≤ softFailCount formula then
      (⟨"simulation", "Not feasible", decisions1.map renderDecision, ⟨none, none⟩⟩,
       decisions1)
    else
      let s3 := step3Outcome env formula
      let decisions2 := decisions1 ++ s3.1
      (⟨"simulation", verdictOf s3.2.2 s3.2.1 (softPassCount formula),
        decisions2.map renderDecision, ⟨s3.2.1, s3.2.2⟩⟩,
       decisions2)
  else
    (⟨"simulation", "Not feasible", ["Stoichiometry Veto: No — " ++ v.2], ⟨none, none⟩⟩,
     [⟨"Stoichiometry Veto", v.1, v.2⟩])

/-- The engine's public result, `run_simulation_agent(formula)`. -/
def run_simulation_agent (env : CollabEnv) (formula : String) : SimulationResult :=
  (runSimFull env formula).1

/-! ## Helper lemmas -/

/-- If no candidate element has a state of the requested sign, the veto's
accumulation loop leaves the running total and assignment list unchanged. -/
theorem assignFold_eq_of_no_states (composition : List (String × Nat))
    (states : String → List Int) (cands : List String)
    (acc : Int × List (String × Int × Nat))
    (h : ∀ e ∈ cands, states e = []) :
    assignFold composition states cands acc = acc := by
  induction cands with
  | nil => rfl
  | cons e rest ih =>
    have he : states e = [] := h e (by simp)
    simp only [assignFold, he]
    exact ih (fun x hx => h x (by simp [hx]))

/-! ## Claims -/

/-- C1: the claim that `get_competing_phases` returns the catalogue entry for
every formula whose chemical system appears in the catalogue is refuted by
the code: the catalogue key for the Cu–Cl system is written `("Cu", "Cl")`,
which is not in sorted order, while the lookup key is the sorted tuple
`("Cl", "Cu")`; the exact-match lookup therefore misses and `CuCl` gets the
empty list even though its chemical system is in the catalogue.  (Lookup does
work for the two keys that happen to be sorted, e.g. the Fe–O system.) -/
theorem c1_library_lookup_key_mismatch :
    chemicalSystemKey "CuCl" = ["Cl", "Cu"] ∧
    (COMPETING_PHASES_LIBRARY.map Prod.fst).contains ["Cu", "Cl"] = true ∧
    stableSort strLe ["Cu", "Cl"] = chemicalSystemKey "CuCl" ∧
    get_competing_phases "CuCl" = [] ∧
    get_competing_phases "Fe2O3" =
      [("Fe", 0.0), ("O2", 0.0), ("FeO", -1.0), ("Fe2O3", -1.2)] := by
  decide

/-- C2: refuted on the code as shipped.  `FeAl2O4` contains oxygen and has
three distinct elements, so the claim says the perovskite (five-site)
template is attempted first; but the second definition of
`generate_prototype_structure` (lines 322-340) shadows the template-selection
definition (lines 113-242), and the effective builder returns the two-site
rock-salt structure for every composition. -/
theorem c2_builder_always_rocksalt :
    (parse_formula "FeAl2O4").map Prod.fst = ["Fe", "Al", "O"] ∧
    lookupCount (parse_formula "FeAl2O4") "O" = 4 ∧
    generate_prototype_structure "FeAl2O4" =
      some ⟨9/2, ["Al", "O"], [[0, 0, 0], [1/2, 1/2, 1/2]]⟩ := by
  decide

/-- C3: refuted on the code as shipped.  For `KNa3S2Cl4` the cation pool is
`["K", "Na"]` and the pool element with the highest atom count is `Na`
(count 3), but the effective builder (the shadowing second definition) picks
`elements[0] = K` — the electronegativity minimum — applies no substitution
refinement, and still returns a structure for `Cu`, whose anion pool is
empty (where the claim requires no structure). -/
theorem c3_builder_ignores_dominant_count :
    cationCands (stableSort enLe ((parse_formula "KNa3S2Cl4").map Prod.fst)) = ["K", "Na"] ∧
    dominantByCount (parse_formula "KNa3S2Cl4") ["K", "Na"] = some "Na" ∧
    (generate_prototype_structure "KNa3S2Cl4").map StructureSpec.species = some ["K", "Cl"] ∧
    anionCands (stableSort enLe ((parse_formula "Cu").map Prod.fst)) = [] ∧
    generate_prototype_structure "Cu" =
      some ⟨9/2, ["Cu", "Cu"], [[0, 0, 0], [1/2, 1/2, 1/2]]⟩ := by
  decide

/-- C4 counterexample: for the tokenless input `"123"` the parser does not
fail — it returns a composition (the empty one) — and the rejection reaches
the caller as the verdict "Not feasible" produced by the stoichiometry veto,
not as a distinct input-validation failure: no `ParseError` exists anywhere
in the code. -/
theorem c4_no_token_input_returns_composition :
    parse_formula "123" = [] ∧
    run_simulation_agent ⟨none, none, Except.error "no data"⟩ "123" =
      ⟨"simulation", "Not feasible",
       ["Stoichiometry Veto: No — Invalid or unary composition."], ⟨none, none⟩⟩ := by
  decide

/-- C4 (amended): for every input string in which the tokenizer finds no
element token, `parse_formula` returns the empty composition, and the
evaluation is rejected by the stoichiometry veto with verdict "Not feasible",
justification "Invalid or unary composition.", and a single-decision trail —
for every collaborator environment. -/
theorem c4_no_token_input_rejected_by_veto (env : CollabEnv) (s : String)
    (h : tokenize s.data = []) :
    parse_formula s = [] ∧
    runSimFull env s =
      (⟨"simulation", "Not feasible",
        ["Stoichiometry Veto: No — Invalid or unary composition."], ⟨none, none⟩⟩,
       [⟨"Stoichiometry Veto", false, "Invalid or unary composition."⟩]) := by
  have hp : parse_formula s = [] := by simp [parse_formula, h]
  refine ⟨hp, ?_⟩
  simp only [runSimFull, hp]
  rfl

/-- Witness for C4 (amended) at the concrete tokenless input `"123"`. -/
theorem c4_no_token_input_rejected_by_veto_witness :
    tokenize "123".data = [] ∧
    runSimFull ⟨some "toolkit down", none, Except.error "e"⟩ "123" =
      (⟨"simulation", "Not feasible",
        ["Stoichiometry Veto: No — Invalid or unary composition."], ⟨none, none⟩⟩,
       [⟨"Stoichiometry Veto", false, "Invalid or unary composition."⟩]) :=
  ⟨by decide,
   (c4_no_token_input_rejected_by_veto ⟨some "toolkit down", none, Except.error "e"⟩
     "123" (by decide)).2⟩

/-- C5 counterexample: `CuCl` passes the veto and fails no soft filter, yet
when the structure step yields no structure (toolkit failure) the decision
trail has five entries, not the six the claim asserts — no Convex Hull
decision is appended on that path. -/
theorem c5_five_decisions_without_structure :
    (check_stoichiometry_veto (parse_formula "CuCl")).1 = true ∧
    softFailCount "CuCl" = 0 ∧
    (runSimFull ⟨some "Structure generation failed", none, Except.error "n/a"⟩ "CuCl").2.map
        ParameterDecision.name =
      ["Stoichiometry Veto", "Electronegativity", "Analogues", "Crystal Chemistry Rules",
       "Formation Energy (M3GNet)"] := by
  decide

/-- C7: if the veto passes but two or more of the three soft filters fail,
the evaluation terminates with verdict "Not feasible", a trail of exactly the
veto decision followed by the three soft-filter decisions (no Formation
Energy or Convex Hull decision), and both stability fields absent — for
every collaborator environment. -/
theorem c7_soft_filter_early_termination (env : CollabEnv) (formula : String)
    (h1 : (check_stoichiometry_veto (parse_formula formula)).1 = true)
    (h2 : 2 ≤ softFailCount formula) :
    (runSimFull env formula).1.verdict = "Not feasible" ∧
    (runSimFull env formula).2.map ParameterDecision.name =
      ["Stoichiometry Veto", "Electronegativity", "Analogues", "Crystal Chemistry Rules"] ∧
    (runSimFull env formula).1.details = ⟨none, none⟩ := by
  simp only [runSimFull, h1]
  rw [if_pos trivial, if_pos h2]
  simp [softDecisionList]

/-- Witness for C7 at `TiAu` (veto passes vacuously, all three soft filters
fail). -/
theorem c7_soft_filter_early_termination_witness :
    (runSimFull ⟨none, none, Except.error "no data"⟩ "TiAu").1.verdict = "Not feasible" ∧
    (runSimFull ⟨none, none, Except.error "no data"⟩ "TiAu").2.map ParameterDecision.name =
      ["Stoichiometry Veto", "Electronegativity", "Analogues", "Crystal Chemistry Rules"] ∧
    (runSimFull ⟨none, none, Except.error "no data"⟩ "TiAu").1.details = ⟨none, none⟩ :=
  c7_soft_filter_early_termination ⟨none, none, Except.error "no data"⟩ "TiAu"
    (by decide) (by decide)

/-- C8: whenever the stoichiometry veto fails, the engine returns immediately
with verdict "Not feasible", a single-decision trail and both stability
fields absent; the result is a function of the formula alone — it is the
same for every collaborator environment, so neither the structure builder,
nor the energy oracle, nor the hull calculator can influence it. -/
theorem c8_veto_failure_single_decision (env : CollabEnv) (formula : String)
    (h : (check_stoichiometry_veto (parse_formula formula)).1 = false) :
    runSimFull env formula =
      (⟨"simulation", "Not feasible",
        ["Stoichiometry Veto: No — " ++ (check_stoichiometry_veto (parse_formula formula)).2],
        ⟨none, none⟩⟩,
       [⟨"Stoichiometry Veto", false, (check_stoichiometry_veto (parse_formula formula)).2⟩]) := by
  simp only [runSimFull, h]
  rfl

/-- Witness for C8 at the unary input `Cu`. -/
theorem c8_veto_failure_single_decision_witness :
    runSimFull ⟨none, some (-1), Except.ok 0⟩ "Cu" =
      (⟨"simulation", "Not feasible",
        ["Stoichiometry Veto: No — Invalid or unary composition."], ⟨none, none⟩⟩,
       [⟨"Stoichiometry Veto", false, "Invalid or unary composition."⟩]) :=
  (c8_veto_failure_single_decision ⟨none, some (-1), Except.ok 0⟩ "Cu" (by decide)).trans
    (by decide)

/-- C9: for every composition with at least two entries in which no element
of the cation half has a positive oxidation state in the table and no
element of the anion half has a negative one, the stoichiometry veto passes
with the justification text "no assignments" — charge neutrality is reported
achievable on no evidence, because the running total stays at zero when no
assignment is ever made. -/
theorem c9_vacuous_veto_pass (composition : List (String × Nat))
    (h1 : 2 ≤ composition.length)
    (h2 : ∀ e ∈ cationCands (stableSort enLe (composition.map Prod.fst)), posStatesOf e = [])
    (h3 : ∀ e ∈ anionCands (stableSort enLe (composition.map Prod.fst)), negStatesOf e = []) :
    check_stoichiometry_veto composition =
      (true, "Charge neutrality achievable via assignments: no assignments.") := by
  simp only [check_stoichiometry_veto]
  rw [if_neg (by omega)]
  rw [assignFold_eq_of_no_states _ _ _ _ h2]
  rw [assignFold_eq_of_no_states _ _ _ _ h3]
  rfl

/-- Witness for C9 at `[("Ti", 1), ("Au", 1)]` — two elements entirely absent
from the oxidation-state table. -/
theorem c9_vacuous_veto_pass_witness :
    check_stoichiometry_veto [("Ti", 1), ("Au", 1)] =
      (true, "Charge neutrality achievable via assignments: no assignments.") :=
  c9_vacuous_veto_pass [("Ti", 1), ("Au", 1)] (by decide) (by decide) (by decide)

/-- When the structure step fails (toolkit exception or no structure), Step 3
appends only the failed Formation-Energy decision and leaves both stability
values absent. -/
theorem step3_failure_shape (env : CollabEnv) (formula : String)
    (h : ¬ (env.structureToolkitError = none ∧
        (generate_prototype_structure formula).isSome = true)) :
    (step3Outcome env formula).1.map ParameterDecision.name = ["Formation Energy (M3GNet)"] ∧
    (step3Outcome env formula).2 = (none, none) := by
  rcases hE : env.structureToolkitError with _ | e
  · rcases hG : generate_prototype_structure formula with _ | s
    · simp [step3Outcome, hE, hG]
    · exact absurd ⟨hE, by simp [hG]⟩ h
  · simp [step3Outcome, hE]

/-- When a structure is obtained, Step 3 appends exactly the Formation-Energy
and Convex-Hull decisions; the former passes iff an energy estimate was
obtained and is negative, the latter iff a hull value was obtained and is at
most 0.2. -/
theorem step3_success_shape (env : CollabEnv) (formula : String)
    (hE : env.structureToolkitError = none)
    (hG : (generate_prototype_structure formula).isSome = true) :
    (step3Outcome env formula).1.map ParameterDecision.name =
      ["Formation Energy (M3GNet)", "Convex Hull Stability (Ehull)"] ∧
    (((step3Outcome env formula).1.getD 0 ⟨"", false, ""⟩).ok = true ↔
      ∃ e : ℚ, (step3Outcome env formula).2.1 = some e ∧ e < 0) ∧
    (((step3Outcome env formula).1.getD 1 ⟨"", false, ""⟩).ok = true ↔
      ∃ hq : ℚ, (step3Outcome env formula).2.2 = some hq ∧ hq ≤ 0.2) := by
  rcases hG' : generate_prototype_structure formula with _ | s
  · rw [hG'] at hG
    simp at hG
  · simp only [step3Outcome, hE, hG']
    rcases hM : env.m3gnetEnergy with _ | en
    · simp [predict_formation_energy, hM]
    · by_cases hC : (get_competing_phases formula).isEmpty = false
      · rw [if_pos ⟨hC, by simp [predict_formation_energy, hM]⟩]
        cases hH : env.hullResult with
        | error msg =>
          simp [predict_formation_energy, hM, compute_ehull, hH, decide_eq_true_iff]
        | ok hq =>
          simp [predict_formation_energy, hM, compute_ehull, hH, decide_eq_true_iff]
      · rw [if_neg (fun hcon => hC hcon.1)]
        simp [predict_formation_energy, hM, decide_eq_true_iff]

/-- When the veto passes and at most one soft filter fails, the run takes the
Step-3 branch: trail = veto decision, soft decisions, Step-3 decisions;
details and verdict come from the Step-3 values. -/
theorem runSimFull_step3_branch (env : CollabEnv) (formula : String)
    (h1 : (check_stoichiometry_veto (parse_formula formula)).1 = true)
    (h2 : softFailCount formula ≤ 1) :
    runSimFull env formula =
      (⟨"simulation",
        verdictOf (step3Outcome env formula).2.2 (step3Outcome env formula).2.1
          (softPassCount formula),
        ((⟨"Stoichiometry Veto", true, (check_stoichiometry_veto (parse_formula formula)).2⟩ ::
            softDecisionList formula) ++ (step3Outcome env formula).1).map renderDecision,
        ⟨(step3Outcome env formula).2.1, (step3Outcome env formula).2.2⟩⟩,
       (⟨"Stoichiometry Veto", true, (check_stoichiometry_veto (parse_formula formula)).2⟩ ::
          softDecisionList formula) ++ (step3Outcome env formula).1) := by
  simp only [runSimFull, h1]
  rw [if_pos trivial, if_neg (by omega)]

/-- C5 (amended): if the veto passes and at most one soft filter fails, the
trail has exactly six decisions in evaluation order — veto, the three soft
filters, Formation Energy (passed iff an estimate was obtained and is
negative) and Convex Hull Stability (passed iff a hull value was obtained
and is at most 0.2) — whenever a prototype structure was obtained, including
when the energy oracle fails; but when the structure step yields no
structure, the trail has exactly five decisions and no Convex Hull decision
is present. -/
theorem c5_trail_shape (env : CollabEnv) (formula : String)
    (h1 : (check_stoichiometry_veto (parse_formula formula)).1 = true)
    (h2 : softFailCount formula ≤ 1) :
    ((env.structureToolkitError = none ∧ (generate_prototype_structure formula).isSome = true) →
      (runSimFull env formula).2.map ParameterDecision.name =
        ["Stoichiometry Veto", "Electronegativity", "Analogues", "Crystal Chemistry Rules",
         "Formation Energy (M3GNet)", "Convex Hull Stability (Ehull)"] ∧
      (((runSimFull env formula).2.getD 4 ⟨"", false, ""⟩).ok = true ↔
        ∃ e : ℚ,
          (runSimFull env formula).1.details.formation_energy_ev_per_atom = some e ∧ e < 0) ∧
      (((runSimFull env formula).2.getD 5 ⟨"", false, ""⟩).ok = true ↔
        ∃ hq : ℚ,
          (runSimFull env formula).1.details.ehull_ev_per_atom = some hq ∧ hq ≤ 0.2)) ∧
    (¬ (env.structureToolkitError = none ∧
        (generate_prototype_structure formula).isSome = true) →
      (runSimFull env formula).2.map ParameterDecision.name =
        ["Stoichiometry Veto", "Electronegativity", "Analogues", "Crystal Chemistry Rules",
         "Formation Energy (M3GNet)"]) := by
  rw [runSimFull_step3_branch env formula h1 h2]
  constructor
  · rintro ⟨hE, hG⟩
    obtain ⟨hn, hfe, hhull⟩ := step3_success_shape env formula hE hG
    refine ⟨?_, ?_, ?_⟩
    · simp [softDecisionList, hn]
    · simpa [softDecisionList] using hfe
    · simpa [softDecisionList] using hhull
  · intro hns
    obtain ⟨hn5, _⟩ := step3_failure_shape env formula hns
    simp [softDecisionList, hn5]

/-- Witness for C5 (amended): `MgO` with a successful structure step, a
negative energy estimate and a hull value — the trail has the six decisions
in order. -/
theorem c5_trail_shape_witness :
    (runSimFull ⟨none, some (-1), Except.ok (1/20)⟩ "MgO").2.map ParameterDecision.name =
      ["Stoichiometry Veto", "Electronegativity", "Analogues", "Crystal Chemistry Rules",
       "Formation Energy (M3GNet)", "Convex Hull Stability (Ehull)"] :=
  ((c5_trail_shape ⟨none, some (-1), Except.ok (1/20)⟩ "MgO" (by decide) (by decide)).1
    ⟨by decide, by decide⟩).1

/-- C6: for every evaluation that reaches the verdict-assembly stage (veto
passed, at most one soft filter failed), the final verdict obeys the decision
table: with a hull value, Feasible/Metastable/Not feasible at the 0.1 and 0.2
thresholds; else Feasible on a negative formation-energy estimate; else
Metastable when at least two of the three soft filters passed, and Uncertain
otherwise. -/
theorem c6_verdict_decision_table (env : CollabEnv) (formula : String)
    (h1 : (check_stoichiometry_veto (parse_formula formula)).1 = true)
    (h2 : softFailCount formula ≤ 1) :
    (∀ h : ℚ, (run_simulation_agent env formula).details.ehull_ev_per_atom = some h →
      ((h ≤ 0.1 → (run_simulation_agent env formula).verdict = "Feasible") ∧
       (0.1 < h → h ≤ 0.2 → (run_simulation_agent env formula).verdict = "Metastable") ∧
       (0.2 < h → (run_simulation_agent env formula).verdict = "Not feasible"))) ∧
    ((run_simulation_agent env formula).details.ehull_ev_per_atom = none →
      ((∀ e : ℚ,
          (run_simulation_agent env formula).details.formation_energy_ev_per_atom = some e →
          e < 0 → (run_simulation_agent env formula).verdict = "Feasible") ∧
       ((∀ e : ℚ,
           (run_simulation_agent env formula).details.formation_energy_ev_per_atom = some e →
           0 ≤ e) →
         ((2 ≤ softPassCount formula →
            (run_simulation_agent env formula).verdict = "Metastable") ∧
          (softPassCount formula < 2 →
            (run_simulation_agent env formula).verdict = "Uncertain"))))) := by
  unfold run_simulation_agent
  rw [runSimFull_step3_branch env formula h1 h2]
  rcases hEh : (step3Outcome env formula).2.2 with _ | h
  · simp only [hEh, verdictOf]
    rcases hFe : (step3Outcome env formula).2.1 with _ | en
    · refine ⟨by simp, fun _ => ⟨by simp, fun _ => ⟨fun hp => by simp [hp], fun hp => ?_⟩⟩⟩
      have hnp : ¬ 2 ≤ softPassCount formula := by omega
      simp [hnp]
    · refine ⟨by simp, fun _ => ⟨?_, ?_⟩⟩
      · intro e he hneg
        simp only [Option.some.injEq] at he
        subst he
        simp [hneg]
      · intro hnn
        have hge : 0 ≤ en := hnn en rfl
        constructor
        · intro hp
          simp [not_lt.mpr hge, hp]
        · intro hp
          have hnp : ¬ 2 ≤ softPassCount formula := by omega
          simp [not_lt.mpr hge, hnp]
  · simp only [hEh, verdictOf]
    refine ⟨?_, by simp⟩
    intro h' hh'
    simp only [Option.some.injEq] at hh'
    subst hh'
    refine ⟨fun hle => by simp [hle], fun hgt hle2 => ?_, fun hgt2 => ?_⟩
    · simp [not_le.mpr hgt, hle2]
    · simp [not_le.mpr (lt_trans (show (0.1 : ℚ) < 0.2 by norm_num) hgt2), not_le.mpr hgt2]

/-- Witness for C6: `MgO` with a hull value of 0.05 — the table's first row
gives "Feasible". -/
theorem c6_verdict_decision_table_witness :
    (run_simulation_agent ⟨none, some (-1), Except.ok (1/20)⟩ "MgO").verdict = "Feasible" :=
  ((c6_verdict_decision_table ⟨none, some (-1), Except.ok (1/20)⟩ "MgO"
      (by decide) (by decide)).1 (1/20) (by decide)).1 (by decide)

/-- C10: the Analogue Family Hint decides by raw substring matching on the
formula text.  `InP` contains neither a halogen element nor oxygen (its
parsed composition is indium and phosphorus), yet the filter passes with the
halide-family justification because the letter sequence `I` occurs in the
text `"InP"`.  The embedded `analogue_comparison_hint` takes only the formula
string — it never consults the parsed composition. -/
theorem c10_analogue_hint_substring_false_positive :
    analogue_comparison_hint "InP" = (true, "Halide family detected; analogues exist.") ∧
    (parse_formula "InP").map Prod.fst = ["In", "P"] ∧
    (∀ e ∈ (parse_formula "InP").map Prod.fst,
        e ∉ (["F", "Cl", "Br", "I", "At"] : List String) ∧ e ≠ "O") := by
  decide

